import Mathlib

set_option maxHeartbeats 1000000
set_option maxRecDepth 8192

/-!
Shallow embedding of `cards_sync.py`: a batch pipeline that pages product
cards out of a remote content API (two pagination strategies), flattens the
nested card / size / barcode structure into rows, validates the rows and
upserts them.  Raw JSON-ish data is modelled by `PyVal`; stateful loops are
modelled by fuel-indexed recursive functions returning `Option` (with `none`
meaning the fuel ran out before the loop's own `break` fired).
-/

/-- Values of the dynamic (JSON-like) payloads handled by the script:
Python `None`, booleans, integers, strings, lists and string-keyed dicts. -/
inductive PyVal where
  | none : PyVal
  | bool : Bool → PyVal
  | int : Int → PyVal
  | str : String → PyVal
  | list : List PyVal → PyVal
  | dict : List (String × PyVal) → PyVal

/-- Python truthiness: `None`, `False`, `0`, `""` and empty containers are
falsy, everything else is truthy.  Used by `or`, `if not bc`, and the row
filter in `main`. -/
def PyVal.truthy : PyVal → Bool
  | .none => false
  | .bool b => b
  | .int n => n != 0
  | .str s => s != ""
  | .list xs => !xs.isEmpty
  | .dict kvs => !kvs.isEmpty

/-- Python `a or b`: returns `a` when `a` is truthy, else `b`. -/
def pyOr (a b : PyVal) : PyVal :=
  if a.truthy then a else b

/-- First-match lookup in an association list (Python dicts have unique
keys, so first-match is exact). -/
def assocGet : List (String × PyVal) → String → PyVal
  | [], _ => PyVal.none
  | (k, v) :: rest, key => if k = key then v else assocGet rest key

/-- Python `d.get(key)`: the stored value, or `None` when the key is absent
(or the receiver is not a dict). -/
def pyGet : PyVal → String → PyVal
  | .dict kvs, key => assocGet kvs key
  | _, _ => PyVal.none

/-- Whether a dict carries the given key (distinguishes an absent key from a
key stored with a falsy value). -/
def hasKey : PyVal → String → Bool
  | .dict kvs, key => kvs.any (fun p => p.1 == key)
  | _, _ => false

/-- Iterating a Python value in a `for` loop; the script only iterates
lists (`sizes`, `skus`, pages of items). -/
def iterList : PyVal → List PyVal
  | .list xs => xs
  | _ => []

mutual
/-- Python `repr` of a payload value (used by `str` on non-string values;
string escaping inside reprs is not modelled, no claim depends on it). -/
def pyRepr : PyVal → String
  | .none => "None"
  | .bool b => if b then "True" else "False"
  | .int n => toString n
  | .str s => "\x27" ++ s ++ "\x27"
  | .list xs => "[" ++ pyReprList xs ++ "]"
  | .dict kvs => "\x7b" ++ pyReprDict kvs ++ "\x7d"

/-- Comma-separated reprs of a list's elements. -/
def pyReprList : List PyVal → String
  | [] => ""
  | [x] => pyRepr x
  | x :: y :: xs => pyRepr x ++ ", " ++ pyReprList (y :: xs)

/-- Comma-separated `key: value` reprs of a dict's entries. -/
def pyReprDict : List (String × PyVal) → String
  | [] => ""
  | [(k, v)] => "\x27" ++ k ++ "\x27: " ++ pyRepr v
  | (k, v) :: e :: kvs => "\x27" ++ k ++ "\x27: " ++ pyRepr v ++ ", " ++ pyReprDict (e :: kvs)
end

/-- Python `str(v)`: a string is returned as is, anything else via `repr`
(integers print in decimal, `None` as "None"). -/
def pyStr : PyVal → String
  | .str s => s
  | v => pyRepr v

/-- Embedding of `_flatten_v2_items` (cards_sync.py lines 46-75): for each
item resolve the card-level fields (each identifier read under two
historical spellings, chained with `or`), then for each size in
`it.get("sizes") or []`, for each barcode in `s.get("skus") or []`, skip a
falsy barcode (`if not bc: continue`) and otherwise append one flat row
with the barcode coerced by `str`. -/
def _flatten_v2_items (items : List PyVal) : List PyVal :=
  items.flatMap fun it =>
    let nm_id := pyOr (pyGet it "nmID") (pyGet it "nmId")
    let imt_id := pyOr (pyGet it "imtID") (pyGet it "imtId")
    let vendor_code := pyGet it "vendorCode"
    let brand := pyGet it "brand"
    let subject := pyOr (pyGet it "subjectName") (pyGet it "subject")
    let updated_at := pyGet it "updatedAt"
    let sizes := pyOr (pyGet it "sizes") (.list [])
    (iterList sizes).flatMap fun s =>
      let tech_size := pyOr (pyGet s "techSize") (pyGet s "techSizeName")
      let size_id := pyOr (pyGet s "sizeID") (pyGet s "sizeId")
      let skus := pyOr (pyGet s "skus") (.list [])
      (iterList skus).filterMap fun bc =>
        if bc.truthy then
          some (.dict [("nm_id", nm_id), ("imt_id", imt_id),
            ("vendor_code", vendor_code), ("brand", brand),
            ("subject", subject), ("tech_size", tech_size),
            ("size_id", size_id), ("barcode", .str (pyStr bc)),
            ("updated_at_wb", updated_at)])
        else Option.none

/-- Embedding of `_flatten_v1_items` (lines 77-79): delegates to the v2
flattener, the structures being near-identical. -/
def _flatten_v1_items (items : List PyVal) : List PyVal :=
  _flatten_v2_items items

/-- Embedding of the row validation in `main` (line 185):
`[r for r in rows if r.get("nm_id") and r.get("barcode")]` — keep a row iff
both key fields are truthy. -/
def cleanRows (rows : List PyVal) : List PyVal :=
  rows.filter fun r => (pyGet r "nm_id").truthy && (pyGet r "barcode").truthy

/-- Embedding of `dropped = len(rows) - len(cleaned)` (line 186). -/
def droppedCount (rows : List PyVal) : Nat :=
  rows.length - (cleanRows rows).length

/-! ## Typed model of the raw card payload (spec section 3)

A `RawCard` / `RawSizeVariant` models one nested card record as the API may
deliver it.  Because the upstream API has used two spellings for several
fields, the model carries both spellings (a field holding `PyVal.none`
plays the role of an absent key: `dict.get` cannot tell them apart). -/

/-- One size variant of a card: display size label and numeric size id
(each under its two historical spellings) and the barcode list `skus`. -/
structure RawSizeVariant where
  techSize : PyVal
  techSizeName : PyVal
  sizeID : PyVal
  sizeId : PyVal
  skus : List PyVal

/-- One raw card: identifiers (two spellings each), seller code, brand,
subject (two spellings), last-modified timestamp and the size variants. -/
structure RawCard where
  nmID : PyVal
  nmId : PyVal
  imtID : PyVal
  imtId : PyVal
  vendorCode : PyVal
  brand : PyVal
  subjectName : PyVal
  subject : PyVal
  updatedAt : PyVal
  sizes : List RawSizeVariant

/-- The dict the API would deliver for a size variant. -/
def RawSizeVariant.enc (s : RawSizeVariant) : PyVal :=
  .dict [("techSize", s.techSize), ("techSizeName", s.techSizeName),
    ("sizeID", s.sizeID), ("sizeId", s.sizeId), ("skus", .list s.skus)]

/-- The dict the API would deliver for a card. -/
def RawCard.enc (c : RawCard) : PyVal :=
  .dict [("nmID", c.nmID), ("nmId", c.nmId), ("imtID", c.imtID),
    ("imtId", c.imtId), ("vendorCode", c.vendorCode), ("brand", c.brand),
    ("subjectName", c.subjectName), ("subject", c.subject),
    ("updatedAt", c.updatedAt),
    ("sizes", .list (c.sizes.map RawSizeVariant.enc))]

/-- The card's catalog identifier, resolved across its two spellings the
way the transform reads it. -/
def RawCard.nm_id (c : RawCard) : PyVal := pyOr c.nmID c.nmId

/-- The card's item-group identifier, resolved across its two spellings. -/
def RawCard.imt_id (c : RawCard) : PyVal := pyOr c.imtID c.imtId

/-- The card's subject name, resolved across its two spellings. -/
def RawCard.subjectRes (c : RawCard) : PyVal := pyOr c.subjectName c.subject

/-- The variant's display size, resolved across its two spellings. -/
def RawSizeVariant.tech_size (s : RawSizeVariant) : PyVal :=
  pyOr s.techSize s.techSizeName

/-- The variant's numeric size id, resolved across its two spellings. -/
def RawSizeVariant.size_id (s : RawSizeVariant) : PyVal :=
  pyOr s.sizeID s.sizeId

/-- The flat catalog row the transform emits for card `c`, variant `s` and
barcode `bc`: the card's shared fields, the variant's size fields, and the
barcode coerced to a string. -/
def catRow (c : RawCard) (s : RawSizeVariant) (bc : PyVal) : PyVal :=
  .dict [("nm_id", c.nm_id), ("imt_id", c.imt_id),
    ("vendor_code", c.vendorCode), ("brand", c.brand),
    ("subject", c.subjectRes), ("tech_size", s.tech_size),
    ("size_id", s.size_id), ("barcode", .str (pyStr bc)),
    ("updated_at_wb", c.updatedAt)]

/-- `x or []` on a list is the list itself (an empty list is falsy, so the
`or` hands back the empty list unchanged). -/
theorem pyOr_list_empty (xs : List PyVal) :
    pyOr (.list xs) (.list []) = .list xs := by
  cases xs <;> simp [pyOr, PyVal.truthy]

/-- A loop that skips falsy elements and emits `f` of the rest is the map
of `f` over the truthy elements. -/
theorem filterMap_truthy_guard (f : PyVal → PyVal) (xs : List PyVal) :
    (xs.filterMap fun bc => if bc.truthy then some (f bc) else Option.none)
      = (xs.filter PyVal.truthy).map f := by
  induction xs with
  | nil => rfl
  | cons x xs ih =>
    by_cases h : x.truthy <;>
      simp [List.filterMap_cons, List.filter_cons, h, ih]

/-- Closed form of the flattening transform on one encoded card: one row
per truthy barcode of each variant, in order, each row being `catRow`. -/
theorem flatten_enc_closed (c : RawCard) :
    _flatten_v2_items [c.enc] =
      c.sizes.flatMap fun s => (s.skus.filter PyVal.truthy).map (catRow c s) := by
  unfold _flatten_v2_items
  simp only [List.flatMap_cons, List.flatMap_nil, List.append_nil]
  unfold RawCard.enc
  simp only [pyGet, assocGet, String.reduceEq, if_true, if_false, reduceIte]
  rw [pyOr_list_empty]
  simp only [iterList, List.flatMap_map]
  induction c.sizes with
  | nil => rfl
  | cons s rest ih =>
    simp only [List.flatMap_cons, ih]
    congr 1
    simp only [RawSizeVariant.enc, pyGet, assocGet, String.reduceEq, reduceIte]
    rw [pyOr_list_empty]
    simp only [iterList, filterMap_truthy_guard, catRow, RawCard.nm_id,
      RawCard.imt_id, RawCard.subjectRes, RawSizeVariant.tech_size,
      RawSizeVariant.size_id]
    rfl

/-- What one call to `requests.request` does on a given attempt: either a
response with some HTTP status code arrives, or the transport raises
(connection failure, timeout). -/
inductive Outcome where
  | status : Nat → Outcome
  | raiseExn : Outcome

/-- The statuses the executor retries explicitly:
`resp.status_code in (429, 500, 502, 503, 504)` (line 32). -/
def transientStatus (c : Nat) : Bool :=
  c == 429 || c == 500 || c == 502 || c == 503 || c == 504

/-- Backoff before the next attempt: `delay = min(30, 2 ** attempt)`
(lines 33 and 41). -/
def backoffDelay (attempt : Nat) : Nat :=
  min 30 (2 ^ attempt)

/-- What `last_err` can hold: a transport exception from
`requests.request`, or the `HTTPError` raised by `resp.raise_for_status()`
for a status in 400..599. -/
inductive ErrKind where
  | transport : ErrKind
  | httpError : Nat → ErrKind

/-- How one call to the executor ends: `return resp` with the response's
status, or `raise SystemExit(...)` carrying the recorded `last_err`
(`Option.none` when no exception was ever recorded, e.g. a run of pure
429/5xx statuses). -/
inductive ReqResult where
  | success : Nat → ReqResult
  | sysExit : Option ErrKind → ReqResult

/-- Observable trace of one executor call: how many HTTP attempts were
issued, the sleeps performed (in seconds, in order), and how it ended. -/
structure ReqTrace where
  attempts : Nat
  delays : List Nat
  result : ReqResult

/-- One iteration of the `for attempt in range(1, MAX_RETRIES + 1)` loop
and its continuation.  `outcomes i` is what the transport does on attempt
`i`.  Branches, in source order: a transport exception is caught by the
`except`, records `last_err`, sleeps and retries; a transient status
(429/5xx set) sleeps and retries without touching `last_err`; any other
status in 400..599 makes `resp.raise_for_status()` raise `HTTPError`,
which the same catch-all `except` records, sleeps and retries; otherwise
the response is returned.  When the range is exhausted the function raises
`SystemExit` carrying `last_err`. -/
def retryFrom (outcomes : Nat → Outcome) (attempt : Nat) (lastErr : Option ErrKind) :
    Nat → ReqTrace
  | 0 => ⟨0, [], .sysExit lastErr⟩
  | remaining + 1 =>
    match outcomes attempt with
    | .raiseExn =>
      let t := retryFrom outcomes (attempt + 1) (some .transport) remaining
      ⟨t.attempts + 1, backoffDelay attempt :: t.delays, t.result⟩
    | .status c =>
      if transientStatus c then
        let t := retryFrom outcomes (attempt + 1) lastErr remaining
        ⟨t.attempts + 1, backoffDelay attempt :: t.delays, t.result⟩
      else if 400 ≤ c ∧ c < 600 then
        let t := retryFrom outcomes (attempt + 1) (some (.httpError c)) remaining
        ⟨t.attempts + 1, backoffDelay attempt :: t.delays, t.result⟩
      else ⟨1, [], .success c⟩

/-- Embedding of `_retryable_request`: attempts run from 1 to
`maxRetries`, `last_err` starts unset. -/
def retryableRequest (maxRetries : Nat) (outcomes : Nat → Outcome) : ReqTrace :=
  retryFrom outcomes 1 Option.none maxRetries

/-- An attempt outcome the claim calls transient: a transport exception,
or a response whose status is in the explicit 429/5xx retry set. -/
def Outcome.isTransient : Outcome → Bool
  | .raiseExn => true
  | .status c => transientStatus c

/-! ## Pagination strategies (lines 81-143) -/

/-- Extraction of the item list from a response body:
`items = js.get("data") if isinstance(js, dict) else js` (lines 99, 130). -/
def itemsView : PyVal → PyVal
  | .dict kvs => assocGet kvs "data"
  | js => js

/-- Embedding of the `while True` loop of `fetch_all_cards_v2`
(lines 89-108).  `resps offset` is the response body the server returns
for the request carrying that offset; the extra `Nat` is fuel, `none`
meaning the loop had not yet hit one of its two `break`s.  The result
collects the accumulated flat rows and the list of offsets actually
requested.  In source order: `if not items: break`; flatten and extend;
`offset += limit`; `if len(items) < limit: break`. -/
def v2Loop (resps : Nat → PyVal) (limit offset : Nat) :
    Nat → Option (List PyVal × List Nat)
  | 0 => Option.none
  | fuel + 1 =>
    let itemsV := itemsView (resps offset)
    let items := iterList itemsV
    if itemsV.truthy = false then some ([], [offset])
    else
      let flat := _flatten_v2_items items
      if items.length < limit then some (flat, [offset])
      else
        match v2Loop resps limit (offset + limit) fuel with
        | some (rows, offs) => some (flat ++ rows, offset :: offs)
        | Option.none => Option.none

/-- Embedding of `fetch_all_cards_v2`: offset starts at 0 and the page
size is the literal `limit = 1000` of line 88. -/
def fetch_all_cards_v2 (resps : Nat → PyVal) (fuel : Nat) :
    Option (List PyVal × List Nat) :=
  v2Loop resps 1000 0 fuel

/-- Observable actions of the v1 cursor loop body: issuing the page
request number `idx`, or sleeping.  The source loop body contains no
`time.sleep` call, so no constructor for it is ever emitted; `sleep` is
kept in the type so that its absence from traces is a statement, not a
typing accident. -/
inductive V1Event where
  | pageRequest : Nat → V1Event
  | sleep : Nat → V1Event

/-- Boolean check that a trace consists of page requests only. -/
def onlyPageRequests (evs : List V1Event) : Bool :=
  evs.all fun e => match e with | .pageRequest _ => true | .sleep _ => false

/-- Embedding of the `while True` loop of `fetch_all_cards_v1_cursor`
(lines 120-142).  `resps k` is the response body of the k-th request; the
cursor fields sent with the request are threaded as state (`cu`, `cn`) and
updated from the last item of each page:
`cursor_updated = last.get("updatedAt") or cursor_updated`,
`cursor_nm = last.get("nmID") or last.get("nmId") or cursor_nm`.
Stops via `if not items: break` or `if len(items) < limit: break` with the
literal `limit = 1000` of line 119; there is no sleep in the body. -/
def v1Loop (resps : Nat → PyVal) (k : Nat) (cu cn : PyVal) :
    Nat → Option (List PyVal × List V1Event)
  | 0 => Option.none
  | fuel + 1 =>
    let itemsV := itemsView (resps k)
    let items := iterList itemsV
    if itemsV.truthy = false then some ([], [.pageRequest k])
    else
      let flat := _flatten_v1_items items
      let last := items.getLastD PyVal.none
      let cu2 := pyOr (pyGet last "updatedAt") cu
      let cn2 := pyOr (pyOr (pyGet last "nmID") (pyGet last "nmId")) cn
      if items.length < 1000 then some (flat, [.pageRequest k])
      else
        match v1Loop resps (k + 1) cu2 cn2 fuel with
        | some (rows, evs) => some (flat ++ rows, .pageRequest k :: evs)
        | Option.none => Option.none

/-- Embedding of `fetch_all_cards_v1_cursor`: the cursor starts at the
"very early" point `("1970-01-01T00:00:00Z", 0)` of lines 117-118. -/
def fetch_all_cards_v1_cursor (resps : Nat → PyVal) (fuel : Nat) :
    Option (List PyVal × List V1Event) :=
  v1Loop resps 0 (.str "1970-01-01T00:00:00Z") (.int 0) fuel

/-! ## Strategy orchestrator (`main`, lines 172-182) -/

/-- How one full strategy invocation ends, seen from `main`: it returns a
row list, raises an ordinary `Exception` (e.g. a JSON decoding error), or
raises `SystemExit` — which is what `_retryable_request` raises on retry
exhaustion and which, deriving from `BaseException` and not `Exception`,
is NOT caught by `except Exception`. -/
inductive StratOutcome where
  | rows : List PyVal → StratOutcome
  | exc : StratOutcome
  | sysExit : StratOutcome

/-- How the fetch phase of `main` ends: with a row list bound to `rows`,
or with the process aborting on an uncaught exception. -/
inductive OrchResult where
  | gotRows : List PyVal → OrchResult
  | aborted : OrchResult

/-- Trace of the fetch phase: how many times `fetch_all_cards_v1_cursor`
was invoked, and the outcome. -/
structure OrchTrace where
  v1Calls : Nat
  outcome : OrchResult

/-- Embedding of the strategy selection of `main` (lines 172-182).
`v2` is the outcome of `fetch_all_cards_v2()`; `v1 i` the outcome of the
(i+1)-th invocation of `fetch_all_cards_v1_cursor`.  Control flow of the
source: inside `try`, run v2; on zero rows run v1 (still inside `try`, so
an ordinary `Exception` from THIS v1 call falls into the handler, which
runs v1 a second time); `except Exception` catches ordinary exceptions
from the `try` body and runs v1; `SystemExit` from anywhere propagates and
aborts the run. -/
def orchestrate (v2 : StratOutcome) (v1 : Nat → StratOutcome) : OrchTrace :=
  match v2 with
  | .sysExit => ⟨0, .aborted⟩
  | .exc =>
    match v1 0 with
    | .rows rs => ⟨1, .gotRows rs⟩
    | _ => ⟨1, .aborted⟩
  | .rows rs =>
    if rs.isEmpty then
      match v1 0 with
      | .rows rs1 => ⟨1, .gotRows rs1⟩
      | .sysExit => ⟨1, .aborted⟩
      | .exc =>
        match v1 1 with
        | .rows rs2 => ⟨2, .gotRows rs2⟩
        | _ => ⟨2, .aborted⟩
    else ⟨0, .gotRows rs⟩

/-- Whether an executor call ended in `raise SystemExit`. -/
def ReqResult.isSysExit : ReqResult → Bool
  | .sysExit _ => true
  | _ => false

/-- Splitting a `map` over `range (n+1)` into its head and a shifted
tail. -/
theorem range_succ_map {α : Type} (g : Nat → α) (n : Nat) :
    (List.range (n + 1)).map g = g 0 :: ((List.range n).map fun k => g (k + 1)) := by
  rw [List.range_succ_eq_map, List.map_cons, List.map_map]
  rfl

/-- Splitting a `flatMap` over `range (n+1)` into its head and a shifted
tail. -/
theorem range_succ_flatMap {α : Type} (g : Nat → List α) (n : Nat) :
    (List.range (n + 1)).flatMap g
      = g 0 ++ ((List.range n).flatMap fun k => g (k + 1)) := by
  rw [List.range_succ_eq_map, List.flatMap_cons, List.flatMap_map]

/-- When every attempt from `attempt` on (for `remaining` attempts) comes
back with a transient status or a transport exception, the retry loop
issues all `remaining` attempts, sleeps `min 30 (2 ^ i)` after the i-th,
and ends in `SystemExit` carrying some final `last_err`. -/
theorem retryFrom_transient (outcomes : Nat → Outcome) :
    ∀ (remaining : Nat), ∀ (attempt : Nat) (le : Option ErrKind),
      (∀ i, attempt ≤ i → i < attempt + remaining → (outcomes i).isTransient = true) →
      ∃ le2, retryFrom outcomes attempt le remaining =
        ⟨remaining, (List.range remaining).map (fun k => backoffDelay (attempt + k)),
          .sysExit le2⟩ := by
  intro remaining
  induction remaining with
  | zero =>
    intro attempt le h
    exact ⟨le, rfl⟩
  | succ n ih =>
    intro attempt le h
    have hatt : (outcomes attempt).isTransient = true :=
      h attempt (Nat.le_refl _) (by omega)
    have hshift : ∀ i, attempt + 1 ≤ i → i < attempt + 1 + n →
        (outcomes i).isTransient = true := by
      intro i h1 h2
      exact h i (by omega) (by omega)
    have hdelays :
        (backoffDelay attempt :: ((List.range n).map fun k => backoffDelay (attempt + 1 + k)))
          = (List.range (n + 1)).map fun k => backoffDelay (attempt + k) := by
      rw [range_succ_map]
      refine congrArg₂ _ (by rw [Nat.add_zero]) ?_
      refine List.map_congr_left ?_
      intro k _
      congr 1
      omega
    rcases ho : outcomes attempt with c | _
    · rw [ho, Outcome.isTransient] at hatt
      obtain ⟨le2, hrec⟩ := ih (attempt + 1) le hshift
      refine ⟨le2, ?_⟩
      simp only [retryFrom, ho, hatt, reduceIte, hrec, ← hdelays]
    · obtain ⟨le2, hrec⟩ := ih (attempt + 1) (some .transport) hshift
      refine ⟨le2, ?_⟩
      simp only [retryFrom, ho, hrec, ← hdelays]

/-- C5 core: a run whose every attempt is transient makes exactly
`maxRetries` attempts with the capped exponential backoff and ends in
`SystemExit`. -/
theorem retryableRequest_transient (maxRetries : Nat) (outcomes : Nat → Outcome)
    (h : ∀ i, 1 ≤ i → i ≤ maxRetries → (outcomes i).isTransient = true) :
    (retryableRequest maxRetries outcomes).attempts = maxRetries
    ∧ (retryableRequest maxRetries outcomes).delays
        = (List.range maxRetries).map (fun k => min 30 (2 ^ (1 + k)))
    ∧ (retryableRequest maxRetries outcomes).result.isSysExit = true := by
  obtain ⟨le2, hr⟩ := retryFrom_transient outcomes maxRetries 1 Option.none
    (fun i h1 h2 => h i h1 (by omega))
  have hR : retryableRequest maxRetries outcomes =
      ⟨maxRetries, (List.range maxRetries).map (fun k => backoffDelay (1 + k)),
        .sysExit le2⟩ := hr
  rw [hR]
  exact ⟨rfl, rfl, rfl⟩

/-- C6 core: when the pages served at offsets `start*1000, (start+1)*1000,
...` are full (at least 1000 items) for `n` pages and the next one is
short, the offset loop terminates right there, having requested exactly
the offsets `(start+k)*1000` for `k = 0..n` (so the offset advanced by
exactly the limit after every page) and accumulated the flattened pages in
order. -/
theorem v2Loop_run (resps : Nat → PyVal) :
    ∀ (n : Nat), ∀ (start : Nat),
      (∀ k, k < n → ∃ l, itemsView (resps ((start + k) * 1000)) = .list l
        ∧ 1000 ≤ l.length) →
      (∃ l, itemsView (resps ((start + n) * 1000)) = .list l ∧ l.length < 1000) →
      v2Loop resps 1000 (start * 1000) (n + 1) =
        some ((List.range (n + 1)).flatMap
            (fun k => _flatten_v2_items (iterList (itemsView (resps ((start + k) * 1000))))),
          (List.range (n + 1)).map fun k => (start + k) * 1000) := by
  intro n
  induction n with
  | zero =>
    intro start hfull hstop
    obtain ⟨l, hl, hlen⟩ := hstop
    rw [Nat.add_zero] at hl
    have h1 : List.range 1 = [0] := rfl
    rw [h1]
    simp only [List.flatMap_cons, List.flatMap_nil, List.append_nil,
      List.map_cons, List.map_nil, Nat.add_zero]
    rw [v2Loop, hl]
    rcases l with _ | ⟨x, xs⟩
    · rw [if_pos (show (PyVal.list []).truthy = false by rfl)]
      rfl
    · rw [if_neg (show ¬ ((PyVal.list (x :: xs)).truthy = false) by simp [PyVal.truthy])]
      simp only [iterList]
      rw [if_pos hlen]
  | succ n ih =>
    intro start hfull hstop
    obtain ⟨l, hl, hlen⟩ := hfull 0 (by omega)
    rw [Nat.add_zero] at hl
    have htr : (PyVal.list l).truthy = true := by
      rcases l with _ | _
      · simp at hlen
      · simp [PyVal.truthy]
    have hnl : ¬ (l.length < 1000) := by omega
    have hoff : start * 1000 + 1000 = (start + 1) * 1000 := by ring
    have hfull' : ∀ k, k < n →
        ∃ l2, itemsView (resps ((start + 1 + k) * 1000)) = .list l2
          ∧ 1000 ≤ l2.length := by
      intro k hk
      have heq : start + (k + 1) = start + 1 + k := by omega
      have h2 := hfull (k + 1) (by omega)
      rw [heq] at h2
      exact h2
    have hstop' : ∃ l2, itemsView (resps ((start + 1 + n) * 1000)) = .list l2
        ∧ l2.length < 1000 := by
      have heq : start + (n + 1) = start + 1 + n := by omega
      rw [heq] at hstop
      exact hstop
    have hrec := ih (start + 1) hfull' hstop'
    have hidx : ∀ k : Nat, start + 1 + k = start + (k + 1) := fun k => by omega
    simp only [hidx] at hrec
    rw [range_succ_flatMap, range_succ_map]
    simp only [Nat.add_zero]
    rw [v2Loop, hl]
    rw [if_neg (fun hc => absurd (htr.symm.trans hc) (by decide))]
    simp only [iterList]
    rw [if_neg hnl, hoff, hrec]
    rfl

/-- C7/C9 core: when the first `n` response batches are full (at least the
limit 1000 items) and the next one is empty or short, the cursor loop
makes exactly `n+1` page requests — and nothing else: its event trace
holds no sleep — accumulating the flattened batches in order. -/
theorem v1Loop_run (resps : Nat → PyVal) :
    ∀ (n : Nat), ∀ (k0 : Nat) (cu cn : PyVal),
      (∀ k, k < n → ∃ l, itemsView (resps (k0 + k)) = .list l ∧ 1000 ≤ l.length) →
      (∃ l, itemsView (resps (k0 + n)) = .list l ∧ l.length < 1000) →
      v1Loop resps k0 cu cn (n + 1) =
        some ((List.range (n + 1)).flatMap
            (fun k => _flatten_v1_items (iterList (itemsView (resps (k0 + k))))),
          (List.range (n + 1)).map fun k => V1Event.pageRequest (k0 + k)) := by
  intro n
  induction n with
  | zero =>
    intro k0 cu cn hfull hstop
    obtain ⟨l, hl, hlen⟩ := hstop
    rw [Nat.add_zero] at hl
    have h1 : List.range 1 = [0] := rfl
    rw [h1]
    simp only [List.flatMap_cons, List.flatMap_nil, List.append_nil,
      List.map_cons, List.map_nil, Nat.add_zero]
    rw [v1Loop, hl]
    rcases l with _ | ⟨x, xs⟩
    · rw [if_pos (show (PyVal.list []).truthy = false by rfl)]
      rfl
    · rw [if_neg (show ¬ ((PyVal.list (x :: xs)).truthy = false) by simp [PyVal.truthy])]
      simp only [iterList]
      rw [if_pos hlen]
  | succ n ih =>
    intro k0 cu cn hfull hstop
    obtain ⟨l, hl, hlen⟩ := hfull 0 (by omega)
    rw [Nat.add_zero] at hl
    have htr : (PyVal.list l).truthy = true := by
      rcases l with _ | _
      · simp at hlen
      · simp [PyVal.truthy]
    have hnl : ¬ (l.length < 1000) := by omega
    have hfull' : ∀ k, k < n →
        ∃ l2, itemsView (resps (k0 + 1 + k)) = .list l2 ∧ 1000 ≤ l2.length := by
      intro k hk
      have heq : k0 + (k + 1) = k0 + 1 + k := by omega
      have h2 := hfull (k + 1) (by omega)
      rw [heq] at h2
      exact h2
    have hstop' : ∃ l2, itemsView (resps (k0 + 1 + n)) = .list l2
        ∧ l2.length < 1000 := by
      have heq : k0 + (n + 1) = k0 + 1 + n := by omega
      rw [heq] at hstop
      exact hstop
    have hrec := ih (k0 + 1)
      (pyOr (pyGet ((iterList (PyVal.list l)).getLastD PyVal.none) "updatedAt") cu)
      (pyOr (pyOr (pyGet ((iterList (PyVal.list l)).getLastD PyVal.none) "nmID")
        (pyGet ((iterList (PyVal.list l)).getLastD PyVal.none) "nmId")) cn)
      hfull' hstop'
    have hidx : ∀ k : Nat, k0 + 1 + k = k0 + (k + 1) := fun k => by omega
    simp only [hidx] at hrec
    rw [range_succ_flatMap, range_succ_map]
    simp only [Nat.add_zero]
    rw [v1Loop, hl]
    rw [if_neg (fun hc => absurd (htr.symm.trans hc) (by decide))]
    simp only [iterList]
    rw [if_neg hnl]
    rw [show iterList (PyVal.list l) = l from rfl] at hrec
    rw [hrec]
    rfl

/-- A truthy lookup result can only come from an entry that is present:
`assocGet` returns `None` (falsy) on a missing key. -/
theorem assocGet_truthy_mem (k : String) :
    ∀ kvs : List (String × PyVal), (assocGet kvs k).truthy = true →
      kvs.any (fun p => p.1 == k) = true := by
  intro kvs
  induction kvs with
  | nil =>
    intro h
    simp [assocGet, PyVal.truthy] at h
  | cons p rest ih =>
    intro h
    obtain ⟨k2, v⟩ := p
    by_cases hk : k2 = k
    · simp [List.any_cons, hk]
    · rw [assocGet, if_neg hk] at h
      simp [List.any_cons, ih h]

/-- A row whose key field is truthy necessarily carries that key. -/
theorem truthy_pyGet_hasKey (r : PyVal) (k : String)
    (h : (pyGet r k).truthy = true) : hasKey r k = true := by
  cases r with
  | dict kvs => exact assocGet_truthy_mem k kvs h
  | none => simp [pyGet, PyVal.truthy] at h
  | bool b => simp [pyGet, PyVal.truthy] at h
  | int n => simp [pyGet, PyVal.truthy] at h
  | str s => simp [pyGet, PyVal.truthy] at h
  | list xs => simp [pyGet, PyVal.truthy] at h

/-- C9 helper: whatever a cursor run returns, its event trace consists of
page requests only — the loop body contains no sleep. -/
theorem v1Loop_only_requests :
    ∀ (fuel : Nat) (resps : Nat → PyVal) (k0 : Nat) (cu cn : PyVal)
      (rows : List PyVal) (evs : List V1Event),
      v1Loop resps k0 cu cn fuel = some (rows, evs) →
      onlyPageRequests evs = true := by
  intro fuel
  induction fuel with
  | zero =>
    intro resps k0 cu cn rows evs h
    exact absurd h (by rw [v1Loop]; exact Option.noConfusion)
  | succ f ih =>
    intro resps k0 cu cn rows evs h
    rw [v1Loop] at h
    by_cases h1 : (itemsView (resps k0)).truthy = false
    · rw [if_pos h1] at h
      injection h with h2
      injection h2 with h3 h4
      rw [← h4]
      rfl
    · rw [if_neg h1] at h
      by_cases h2 : (iterList (itemsView (resps k0))).length < 1000
      · rw [if_pos h2] at h
        injection h with h3
        injection h3 with h4 h5
        rw [← h5]
        rfl
      · rw [if_neg h2] at h
        rcases hr : v1Loop resps (k0 + 1)
            (pyOr (pyGet ((iterList (itemsView (resps k0))).getLastD PyVal.none) "updatedAt") cu)
            (pyOr (pyOr (pyGet ((iterList (itemsView (resps k0))).getLastD PyVal.none) "nmID")
              (pyGet ((iterList (itemsView (resps k0))).getLastD PyVal.none) "nmId")) cn) f
          with _ | p
        · rw [hr] at h
          exact absurd h (by exact Option.noConfusion)
        · obtain ⟨rows2, evs2⟩ := p
          rw [hr] at h
          injection h with h3
          injection h3 with h4 h5
          rw [← h5, onlyPageRequests, List.all_cons]
          have := ih resps (k0 + 1) _ _ rows2 evs2 hr
          rw [onlyPageRequests] at this
          rw [this]
          rfl

/-! ## Claim theorems and their concrete instances -/

/-- Example rows: a row whose keys are both present, `nm_id` stored 0. -/
def c3row : PyVal := .dict [("nm_id", .int 0), ("barcode", .str "123")]

/-- Example row with truthy keys, for the C3 witness. -/
def w3row : PyVal := .dict [("nm_id", .int 5), ("barcode", .str "b")]

/-- Example row with present keys and a stored 0 id, for the C10 witness. -/
def w10row : PyVal := .dict [("nm_id", .int 0), ("barcode", .str "zzz")]

/-- Example card for the C2 witness: two size variants carrying two and
one barcodes. -/
def w2card : RawCard :=
  ⟨.int 15, .none, .int 77, .none, .str "SKU-1", .str "BrandX", .str "Shoes", .none,
    .str "2024-01-01T00:00:00Z",
    [⟨.str "41", .none, .int 1, .none, [.str "111", .str "222"]⟩,
      ⟨.str "42", .none, .int 2, .none, [.str "333"]⟩]⟩

/-- Example raw card whose first id spelling is present but stores the
falsy 0 while the second spelling stores 7. -/
def c8card : PyVal :=
  .dict [("nmID", .int 0), ("nmId", .int 7),
    ("sizes", .list [.dict [("skus", .list [.str "111"])]])]

/-- Example raw card for the C8 witness. -/
def w8card : PyVal :=
  .dict [("nmID", .int 5),
    ("sizes", .list [.dict [("techSize", .str "M"), ("skus", .list [.str "b1"])]])]

/-- The row the transform emits for `w8card`. -/
def w8row : PyVal :=
  .dict [("nm_id", .int 5), ("imt_id", PyVal.none), ("vendor_code", PyVal.none),
    ("brand", PyVal.none), ("subject", PyVal.none), ("tech_size", .str "M"),
    ("size_id", PyVal.none), ("barcode", .str "b1"), ("updated_at_wb", PyVal.none)]

/-- Example upstream that answers every request with an empty data list. -/
def emptyPageResps : Nat → PyVal := fun _ => .dict [("data", .list [])]

/-- Example upstream for the C7 witness: a single one-item (short) page. -/
def w7resps : Nat → PyVal := fun _ => .dict [("data", .list [.dict []])]

/-- Example upstream for the C7 counterexample: a three-item batch whose
cursor object reports 2000 items remaining. -/
def c7resps : Nat → PyVal := fun _ =>
  .dict [("data", .list [.dict [], .dict [], .dict []]),
    ("cursor", .dict [("total", .int 2000)])]

/-- Example upstream for the C9 counterexample: one full 1000-item page,
then an empty one. -/
def c9resps : Nat → PyVal := fun k =>
  if k = 0 then .dict [("data", .list (List.replicate 1000 (PyVal.dict [])))]
  else .dict [("data", .list [])]

/-- C1: contrary to the claim, a permanent failure (retry exhaustion) in
the primary v2 strategy does NOT trigger the v1 fallback.  The executor's
permanent failure is `raise SystemExit` (line 44); in `main` the handler
is `except Exception` (line 180), and Python's `SystemExit` derives from
`BaseException`, not `Exception`, so it is not caught: on a first v2 page
whose every attempt returns HTTP 500 the run aborts with zero v1 calls,
even though v1 would have returned rows. -/
theorem orchestrator_no_fallback_on_retry_exhaustion :
    (retryableRequest 3 (fun _ => Outcome.status 500)).result
        = ReqResult.sysExit Option.none
    ∧ orchestrate StratOutcome.sysExit
        (fun _ => StratOutcome.rows [PyVal.dict [("nm_id", PyVal.int 1)]])
      = ⟨0, OrchResult.aborted⟩ :=
  ⟨rfl, rfl⟩

/-- C2: flattening one card yields exactly the rows `catRow c s bc` for
each truthy barcode `bc` of each variant `s`, in order — each row carrying
the card's resolved `nm_id`, `imt_id`, `vendor_code`, `brand`, `subject`
and `updated_at_wb`, its variant's `tech_size` and `size_id`, and its own
barcode coerced to a string; falsy barcodes are skipped, and when every
barcode is truthy the row count is exactly the sum of the barcode-list
lengths (zero when there are no variants or only empty lists). -/
theorem flatten_card_rows (c : RawCard) :
    _flatten_v2_items [c.enc]
        = (c.sizes.flatMap fun s => (s.skus.filter PyVal.truthy).map (catRow c s))
    ∧ ((∀ s ∈ c.sizes, ∀ bc ∈ s.skus, bc.truthy = true) →
        (_flatten_v2_items [c.enc]).length
          = (c.sizes.map fun s => s.skus.length).sum) := by
  refine ⟨flatten_enc_closed c, fun hall => ?_⟩
  rw [flatten_enc_closed c, List.length_flatMap]
  congr 1
  refine List.map_congr_left ?_
  intro s hs
  simp only [Function.comp_apply, List.length_map]
  rw [List.filter_eq_self.mpr (hall s hs)]

/-- C2 witness: the example card has barcode lists of lengths 2 and 1 and
the transform emits exactly 3 rows. -/
theorem flatten_card_rows_witness :
    (_flatten_v2_items [w2card.enc]).length
      = (w2card.sizes.map fun s => s.skus.length).sum :=
  (flatten_card_rows w2card).2 (by decide)

/-- C3 amended: validation keeps exactly the rows whose `nm_id` and
`barcode` are truthy (so presence with a falsy value is also dropped);
every kept row does carry both keys, and the dropped count plus the kept
count is the input count. -/
theorem validation_keeps_truthy_keys (rows : List PyVal) (r : PyVal) :
    (r ∈ cleanRows rows ↔ r ∈ rows ∧ (pyGet r "nm_id").truthy = true
      ∧ (pyGet r "barcode").truthy = true)
    ∧ (r ∈ cleanRows rows → hasKey r "nm_id" = true ∧ hasKey r "barcode" = true)
    ∧ droppedCount rows + (cleanRows rows).length = rows.length := by
  have hmem : r ∈ cleanRows rows ↔ r ∈ rows ∧ (pyGet r "nm_id").truthy = true
      ∧ (pyGet r "barcode").truthy = true := by
    rw [cleanRows, List.mem_filter]
    simp [Bool.and_eq_true]
  refine ⟨hmem, fun hr => ?_, ?_⟩
  · obtain ⟨-, h1, h2⟩ := hmem.mp hr
    exact ⟨truthy_pyGet_hasKey r "nm_id" h1, truthy_pyGet_hasKey r "barcode" h2⟩
  · rw [droppedCount]
    have hle : (cleanRows rows).length ≤ rows.length := by
      rw [cleanRows]
      exact List.length_filter_le _ _
    omega

/-- C3 witness: a row with truthy keys is kept, and its keys are present. -/
theorem validation_keeps_truthy_keys_witness :
    hasKey w3row "nm_id" = true ∧ hasKey w3row "barcode" = true :=
  (validation_keeps_truthy_keys [w3row] w3row).2.1 (List.Mem.head _)

/-- C3 counterexample: a row carrying BOTH keys (nothing missing) with
`nm_id` stored as 0 is nevertheless removed and counted as dropped — the
stage does not remove exactly the rows with missing keys. -/
theorem validation_drops_present_key_row :
    hasKey c3row "nm_id" = true ∧ hasKey c3row "barcode" = true
    ∧ cleanRows [c3row] = [] ∧ droppedCount [c3row] = 1 :=
  ⟨rfl, rfl, rfl, rfl⟩

/-- C4: contrary to the claim, a non-retryable 4xx is retried: the
`HTTPError` from `resp.raise_for_status()` (line 37) is caught by the
catch-all `except Exception` of line 39, which sleeps and retries.  With
`MAX_RETRIES = 3` and a server always answering 404 the executor issues 3
attempts with backoffs 2, 4, 8 and only then raises `SystemExit` carrying
the `HTTPError` — not an immediate failure after attempt 1 with no
backoff. -/
theorem retry_on_404_eval :
    retryableRequest 3 (fun _ => Outcome.status 404)
      = ⟨3, [2, 4, 8], .sysExit (some (.httpError 404))⟩ := rfl

/-- C5: a request whose every attempt is transient (429/500/502/503/504
or a transport exception) is attempted exactly `MAX_RETRIES` times, with a
sleep of `min 30 (2 ^ attempt)` after each attempt — growing exponentially
with the attempt number, capped at 30 — and then fails permanently by
raising `SystemExit` (carrying the recorded `last_err`), which is fatal to
the calling strategy. -/
theorem retryable_request_retry_bound (maxRetries : Nat) (outcomes : Nat → Outcome)
    (h : ∀ i, 1 ≤ i → i ≤ maxRetries → (outcomes i).isTransient = true) :
    (retryableRequest maxRetries outcomes).attempts = maxRetries
    ∧ (retryableRequest maxRetries outcomes).delays
        = (List.range maxRetries).map (fun k => min 30 (2 ^ (1 + k)))
    ∧ (retryableRequest maxRetries outcomes).result.isSysExit = true :=
  retryableRequest_transient maxRetries outcomes h

/-- C5 witness: three attempts of constant 429 sleep 2, 4, 8 seconds and
end in `SystemExit`. -/
theorem retryable_request_retry_bound_witness :
    (retryableRequest 3 (fun _ => Outcome.status 429)).attempts = 3
    ∧ (retryableRequest 3 (fun _ => Outcome.status 429)).delays = [2, 4, 8]
    ∧ (retryableRequest 3 (fun _ => Outcome.status 429)).result.isSysExit = true :=
  retryable_request_retry_bound 3 (fun _ => Outcome.status 429) (fun _ _ _ => rfl)

/-- C6: when the server's pages at offsets `0, 1000, ..., (n-1)*1000` are
full and the page at `n*1000` is the first empty-or-short one, the offset
strategy terminates exactly there: it requests exactly the offsets
`k * 1000` for `k = 0..n` (the offset advancing by exactly the limit 1000
after every page, whatever the returned count) and returns the flattened
pages in order. -/
theorem fetch_v2_terminates (resps : Nat → PyVal) (n : Nat)
    (hfull : ∀ k, k < n → ∃ l, itemsView (resps (k * 1000)) = .list l
      ∧ 1000 ≤ l.length)
    (hstop : ∃ l, itemsView (resps (n * 1000)) = .list l
      ∧ (l = [] ∨ l.length < 1000)) :
    fetch_all_cards_v2 resps (n + 1) =
      some ((List.range (n + 1)).flatMap
          (fun k => _flatten_v2_items (iterList (itemsView (resps (k * 1000))))),
        (List.range (n + 1)).map fun k => k * 1000) := by
  have hfull0 : ∀ k, k < n → ∃ l, itemsView (resps ((0 + k) * 1000)) = .list l
      ∧ 1000 ≤ l.length := by
    intro k hk
    rw [Nat.zero_add]
    exact hfull k hk
  have hstop0 : ∃ l, itemsView (resps ((0 + n) * 1000)) = .list l
      ∧ l.length < 1000 := by
    obtain ⟨l, hl, hs⟩ := hstop
    refine ⟨l, by rw [Nat.zero_add]; exact hl, ?_⟩
    rcases hs with h | h
    · subst h
      simp
    · exact h
  have h := v2Loop_run resps n 0 hfull0 hstop0
  rw [Nat.zero_mul] at h
  rw [fetch_all_cards_v2, h]
  simp only [Nat.zero_add]

/-- C6 witness: an upstream whose very first page is empty makes the
strategy terminate after the single request at offset 0. -/
theorem fetch_v2_terminates_witness :
    fetch_all_cards_v2 emptyPageResps 1 =
      some ((List.range 1).flatMap
          (fun k => _flatten_v2_items (iterList (itemsView (emptyPageResps (k * 1000))))),
        (List.range 1).map fun k => k * 1000) :=
  fetch_v2_terminates emptyPageResps 0 (fun k hk => absurd hk (by omega))
    ⟨[], rfl, Or.inl rfl⟩

/-- C7 amended: the cursor strategy stops when the returned batch is empty
or when the COUNT OF ITEMS IN THE BATCH is below the requested page size
1000; the cursor object's server-reported total is never consulted.  Under
that condition the run makes exactly `n+1` page requests and returns the
flattened batches in order. -/
theorem fetch_v1_stops_on_short_batch (resps : Nat → PyVal) (n : Nat)
    (hfull : ∀ k, k < n → ∃ l, itemsView (resps k) = .list l ∧ 1000 ≤ l.length)
    (hstop : ∃ l, itemsView (resps n) = .list l ∧ (l = [] ∨ l.length < 1000)) :
    fetch_all_cards_v1_cursor resps (n + 1) =
      some ((List.range (n + 1)).flatMap
          (fun k => _flatten_v1_items (iterList (itemsView (resps k)))),
        (List.range (n + 1)).map fun k => V1Event.pageRequest k) := by
  have hfull0 : ∀ k, k < n → ∃ l, itemsView (resps (0 + k)) = .list l
      ∧ 1000 ≤ l.length := by
    intro k hk
    rw [Nat.zero_add]
    exact hfull k hk
  have hstop0 : ∃ l, itemsView (resps (0 + n)) = .list l ∧ l.length < 1000 := by
    obtain ⟨l, hl, hs⟩ := hstop
    refine ⟨l, by rw [Nat.zero_add]; exact hl, ?_⟩
    rcases hs with h | h
    · subst h
      simp
    · exact h
  have h := v1Loop_run resps n 0 (.str "1970-01-01T00:00:00Z") (.int 0) hfull0 hstop0
  rw [fetch_all_cards_v1_cursor, h]
  simp only [Nat.zero_add]

/-- C7 amended witness: a single short (one-item) page stops the cursor
strategy after one request. -/
theorem fetch_v1_stops_on_short_batch_witness :
    fetch_all_cards_v1_cursor w7resps 1 =
      some ((List.range 1).flatMap
          (fun k => _flatten_v1_items (iterList (itemsView (w7resps k)))),
        (List.range 1).map fun k => V1Event.pageRequest k) :=
  fetch_v1_stops_on_short_batch w7resps 0 (fun k hk => absurd hk (by omega))
    ⟨[.dict []], rfl, Or.inr (by decide)⟩

/-- C7 counterexample: a response whose cursor object reports 2000 items
remaining (more than the page size) but whose batch holds 3 items: by the
claim the strategy should continue, yet the run stops after this single
request, because the code compares the batch length, never the cursor
total. -/
theorem cursor_stop_ignores_reported_total :
    pyGet (pyGet (c7resps 0) "cursor") "total" = PyVal.int 2000
    ∧ (iterList (itemsView (c7resps 0))).length = 3
    ∧ fetch_all_cards_v1_cursor c7resps 5 = some ([], [V1Event.pageRequest 0]) :=
  ⟨rfl, rfl, rfl⟩

/-- C8 amended: every emitted row resolves each aliased field to the first
spelling whose VALUE IS TRUTHY (`a or b`), not to the first spelling that
is present: `nm_id` is `nmID or nmId`, `imt_id` is `imtID or imtId`,
`subject` is `subjectName or subject`, and for the row's own variant `s`,
`tech_size` is `techSize or techSizeName` and `size_id` is
`sizeID or sizeId`. -/
theorem flatten_alias_first_truthy (it r : PyVal)
    (hr : r ∈ _flatten_v2_items [it]) :
    pyGet r "nm_id" = pyOr (pyGet it "nmID") (pyGet it "nmId")
    ∧ pyGet r "imt_id" = pyOr (pyGet it "imtID") (pyGet it "imtId")
    ∧ pyGet r "subject" = pyOr (pyGet it "subjectName") (pyGet it "subject")
    ∧ ∃ s, s ∈ iterList (pyOr (pyGet it "sizes") (.list []))
        ∧ pyGet r "tech_size" = pyOr (pyGet s "techSize") (pyGet s "techSizeName")
        ∧ pyGet r "size_id" = pyOr (pyGet s "sizeID") (pyGet s "sizeId") := by
  simp only [_flatten_v2_items, List.flatMap_cons, List.flatMap_nil, List.append_nil,
    List.mem_flatMap, List.mem_filterMap] at hr
  obtain ⟨s, hs, bc, hbc, hrow⟩ := hr
  by_cases ht : bc.truthy = true
  · rw [if_pos ht] at hrow
    injection hrow with h2
    subst h2
    exact ⟨rfl, rfl, rfl, s, hs, rfl, rfl⟩
  · rw [if_neg ht] at hrow
    exact absurd hrow (by exact Option.noConfusion)

/-- C8 amended witness: for the example card the emitted row's fields are
the first-truthy resolutions. -/
theorem flatten_alias_first_truthy_witness :
    pyGet w8row "nm_id" = pyOr (pyGet w8card "nmID") (pyGet w8card "nmId")
    ∧ pyGet w8row "imt_id" = pyOr (pyGet w8card "imtID") (pyGet w8card "imtId")
    ∧ pyGet w8row "subject" = pyOr (pyGet w8card "subjectName") (pyGet w8card "subject")
    ∧ ∃ s, s ∈ iterList (pyOr (pyGet w8card "sizes") (.list []))
        ∧ pyGet w8row "tech_size" = pyOr (pyGet s "techSize") (pyGet s "techSizeName")
        ∧ pyGet w8row "size_id" = pyOr (pyGet s "sizeID") (pyGet s "sizeId") :=
  flatten_alias_first_truthy w8card w8row (List.Mem.head _)

/-- C8 counterexample: `nmID` is PRESENT in the record with value 0, yet
the emitted row's `nm_id` is 7, the value of the OTHER spelling — the
transform does not prefer the first spelling that is present, it prefers
the first spelling whose value is truthy. -/
theorem flatten_alias_skips_falsy_present :
    hasKey c8card "nmID" = true ∧ pyGet c8card "nmID" = PyVal.int 0
    ∧ (_flatten_v2_items [c8card]).map (fun r => pyGet r "nm_id") = [PyVal.int 7] :=
  ⟨rfl, rfl, rfl⟩

/-- C9 amended: whatever the cursor strategy does, its action trace holds
page requests only: the loop body contains no sleep at all, so no
inter-request delay separates successful pages (the only sleeps of the
program are the retry backoffs inside `_retryable_request`). -/
theorem fetch_v1_no_interpage_sleep (resps : Nat → PyVal) (fuel : Nat)
    (rows : List PyVal) (evs : List V1Event)
    (h : fetch_all_cards_v1_cursor resps fuel = some (rows, evs)) :
    onlyPageRequests evs = true :=
  v1Loop_only_requests fuel resps 0 (.str "1970-01-01T00:00:00Z") (.int 0) rows evs h

/-- C9 amended witness: a one-page run's trace is a single page request. -/
theorem fetch_v1_no_interpage_sleep_witness :
    onlyPageRequests [V1Event.pageRequest 0] = true :=
  fetch_v1_no_interpage_sleep emptyPageResps 1 [] [V1Event.pageRequest 0] rfl

/-- C9 counterexample: a run over one full page followed by an empty page
issues its two page requests back-to-back — the trace contains no sleep
event between them, where the claim requires an inter-request pause after
the first (successful, non-final) page. -/
theorem cursor_no_sleep_between_pages :
    (fetch_all_cards_v1_cursor c9resps 3).map (fun p => p.2)
      = some [V1Event.pageRequest 0, V1Event.pageRequest 1] := rfl

/-- C10: validation tests the key fields by truthiness, not presence: a
row whose `nm_id` is stored as 0, or whose `barcode` is stored as the
empty string, is dropped and counted as invalid even when both keys are
present in the row. -/
theorem validation_truthiness_drop (r : PyVal)
    (h1 : hasKey r "nm_id" = true) (h2 : hasKey r "barcode" = true)
    (h : pyGet r "nm_id" = PyVal.int 0 ∨ pyGet r "barcode" = PyVal.str "") :
    cleanRows [r] = [] ∧ droppedCount [r] = 1 ∧ r ∉ cleanRows [r] := by
  have hcond : ((pyGet r "nm_id").truthy && (pyGet r "barcode").truthy) = false := by
    rcases h with h | h <;> rw [h] <;> simp [PyVal.truthy]
  have hclean : cleanRows [r] = [] := by
    simp [cleanRows, List.filter_cons, hcond]
  refine ⟨hclean, ?_, ?_⟩
  · simp [droppedCount, hclean]
  · rw [hclean]
    exact List.not_mem_nil r

/-- C10 witness: the example row with present keys and `nm_id = 0` is
dropped and counted. -/
theorem validation_truthiness_drop_witness :
    cleanRows [w10row] = [] ∧ droppedCount [w10row] = 1
    ∧ w10row ∉ cleanRows [w10row] :=
  validation_truthiness_drop w10row rfl rfl (Or.inl rfl)
